import Mathlib

/-!
Shallow embedding of the resilient API-access layer of the Weather_Forecast
repository: error taxonomy (`src/types/error.ts`), retry / rate-limit /
offline handling (`src/utils/errorHandling.ts`), the expiring cache
(`CacheService`), and the geocoding / weather clients (`LocationService`,
`WeatherService`).

Modelling conventions:
* JavaScript numbers are modelled by `JNum` (either `NaN` or an exact
  rational); comparisons against `NaN` are `false`, as in JS.
* Timestamps (`Date.now()` values, `expiresAt`, parsed dates) are naturals.
* The `localStorage`-backed caches are association lists from string keys to
  entries; the in-memory object and its serialized blob always coincide in
  the code (every mutation is followed by `setItem` on the same object), so
  one map models both.
* Asynchronous effects are made explicit: the outcome of the HTTP fetch and
  of `response.json()` are passed in as parameters, the online/offline state
  is a function of the attempt number, jitter (`Math.random()*1000`) is a
  function of the attempt number, and sleeps are recorded in a list.
* A thrown JS value is `Thrown`: either a classified `AppError` or a raw
  exception carrying its message (`Thrown.other`), e.g. a `SyntaxError`
  from JSON parsing.
-/

/-- The four error kinds of `src/types/error.ts` (`ErrorType`). -/
inductive ErrorType where
  | network
  | api
  | data
  | user
deriving DecidableEq

/-- `AppError` from `src/types/error.ts`: kind, message, retryable flag and
optional original error (modelled by its message). -/
structure AppError where
  type : ErrorType
  message : String
  retryable : Bool
  originalError : Option String := none
deriving DecidableEq

/-- `createAppError` from `src/types/error.ts`. -/
def createAppError (type : ErrorType) (message : String)
    (retryable : Bool := false) (originalError : Option String := none) :
    AppError :=
  { type := type, message := message, retryable := retryable,
    originalError := originalError }

/-- A thrown JS value: a classified `AppError`, or a raw non-`AppError`
exception (e.g. a `SyntaxError` from `response.json()`), identified by its
message. -/
inductive Thrown where
  | app (e : AppError)
  | other (msg : String)
deriving DecidableEq

/-- A JavaScript number: `NaN` or an exact rational value. (Infinities and
floating-point rounding are not exercised by this code path.) -/
inductive JNum where
  | nan
  | val (q : ℚ)
deriving DecidableEq

/-- JS `<` on numbers: any comparison against `NaN` is false. -/
def jsLt : JNum → JNum → Bool
  | .val a, .val b => decide (a < b)
  | _, _ => false

/-- JS `>` on numbers: any comparison against `NaN` is false. -/
def jsGt : JNum → JNum → Bool
  | .val a, .val b => decide (a > b)
  | _, _ => false

/-- JS whitespace (the characters relevant to `trim` and `\s` here). -/
def isJsWs (c : Char) : Bool :=
  c = ' ' ∨ c = '\t' ∨ c = '\n' ∨ c = '\r' ∨ c = '\x0b' ∨ c = '\x0c'

/-- ASCII lowercasing of one character (`String.prototype.toLowerCase`). -/
def jsLowerChar (c : Char) : Char :=
  if 'A' ≤ c ∧ c ≤ 'Z' then Char.ofNat (c.toNat + 32) else c

/-- `String.prototype.trim` on a character list. -/
def jsTrimList (l : List Char) : List Char :=
  (((l.dropWhile isJsWs).reverse).dropWhile isJsWs).reverse

/-- `replace(/\s+/g, ' ')` on a character list: each maximal run of
whitespace becomes a single space. -/
def collapseWs : List Char → List Char
  | [] => []
  | [c] => if isJsWs c then [' '] else [c]
  | c :: d :: rest =>
    if isJsWs c ∧ isJsWs d then collapseWs (d :: rest)
    else (if isJsWs c then ' ' else c) :: collapseWs (d :: rest)

/-- `CacheService.normalizeQuery`:
`query.toLowerCase().trim().replace(/\s+/g, ' ')`. -/
def normalizeQuery (query : String) : String :=
  String.mk (collapseWs (jsTrimList (query.toList.map jsLowerChar)))

/-- The character set stripped by `LocationService.sanitizeQuery`
(the regex `[<>\"'&()\/]`). -/
def dangerousChars : List Char :=
  ['<', '>', '"', Char.ofNat 39, '&', '(', ')', '/']

/-- `LocationService.sanitizeQuery`: trim, strip dangerous characters,
truncate to 100 characters. -/
def sanitizeQuery (query : String) : String :=
  String.mk
    (((jsTrimList query.toList).filter (fun c => decide (c ∉ dangerousChars))).take 100)

/-- `LocationService.isValidQuery`. -/
def isValidQuery (query : String) : Bool :=
  query.length ≥ 2 ∧ query.length ≤ 100

/-- A cache entry (`CacheEntry<T>` in `CacheService`): payload, creation
timestamp and expiry timestamp. -/
structure CacheEntry (α : Type) where
  data : α
  timestamp : ℕ
  expiresAt : ℕ
deriving DecidableEq

/-- First-match lookup in an association list (a JS object keyed by
strings; keys are unique by construction). -/
def lookupKey {α : Type} : List (String × α) → String → Option α
  | [], _ => none
  | (k, v) :: rest, key => if k = key then some v else lookupKey rest key

/-- JS `obj[key] = v`: overwrite in place if present, else append. -/
def setEntry {α : Type} : List (String × α) → String → α → List (String × α)
  | [], key, v => [(key, v)]
  | (k, w) :: rest, key, v =>
    if k = key then (key, v) :: rest else (k, w) :: setEntry rest key v

/-- JS `delete obj[key]`. -/
def eraseKey {α : Type} (l : List (String × α)) (key : String) :
    List (String × α) :=
  l.filter (fun p => decide (p.1 ≠ key))

/-- A raw JSON value as delivered by the geocoding API (the slice of JS
values relevant to `isValidLocationResult`'s `typeof` checks). -/
inductive JsonVal where
  | jnum (x : JNum)
  | jstr (s : String)
  | jbool (b : Bool)
  | jnull
deriving DecidableEq

/-- `Location` from `src/types/location.ts`, as produced by
`LocationService.transformLocationResult`. `admin1` keeps the raw JSON value
selected by `(result.admin1 as string) || undefined` (which can retain a
truthy non-string). -/
structure Location where
  id : JNum
  name : String
  country : String
  admin1 : Option JsonVal
  latitude : JNum
  longitude : JNum
deriving DecidableEq

/-- `CurrentWeatherData` from `src/types/weather.ts`; `timestamp` is the
parsed `Date` as epoch milliseconds. -/
structure CurrentWeatherData where
  temperature : JNum
  weatherCode : JNum
  windSpeed : JNum
  windDirection : JNum
  humidity : JNum
  timestamp : ℕ
deriving DecidableEq

/-- `ForecastData` from `src/types/weather.ts`. -/
structure ForecastData where
  date : ℕ
  temperatureMax : JNum
  temperatureMin : JNum
  weatherCode : JNum
  precipitationSum : JNum
deriving DecidableEq

/-- `WeatherCacheData` from `CacheService`: current conditions plus
forecast, cached together. -/
structure WeatherCacheData where
  current : CurrentWeatherData
  forecast : List ForecastData
deriving DecidableEq

/-- The location-search cache namespace (`weather-app-location-cache`). -/
abbrev LocMap := List (String × CacheEntry (List Location))

/-- The weather cache namespace (`weather-app-weather-cache`). -/
abbrev WMap := List (String × CacheEntry WeatherCacheData)

/-- `LOCATION_CACHE_DURATION` (24 hours in ms). -/
def LOCATION_CACHE_DURATION : ℕ := 24 * 60 * 60 * 1000

/-- `WEATHER_CACHE_DURATION` with the default
`config.cacheDurationMinutes = 10`. -/
def WEATHER_CACHE_DURATION : ℕ := 10 * 60 * 1000

/-- `MAX_LOCATION_CACHE_SIZE`. -/
def MAX_LOCATION_CACHE_SIZE : ℕ := 50

/-- Floor of a rational, by floored integer division (kernel-reducible). -/
def ratFloor (q : ℚ) : ℤ :=
  q.num.fdiv q.den

/-- One component of `getWeatherCacheKey`: `Math.round(x * 100) / 100`
rendered exactly as JS string interpolation prints it (`"NaN"` for `NaN`,
half rounds toward positive infinity, no trailing zeros). -/
def coordKeyPart : JNum → String
  | .nan => "NaN"
  | .val q =>
    let k : ℤ := ratFloor (q * 100 + 1 / 2)
    let a : ℕ := k.natAbs
    let sign : String := if k < 0 then "-" else ""
    let ip : ℕ := a / 100
    let fr : ℕ := a % 100
    if fr = 0 then sign ++ toString ip
    else if fr % 10 = 0 then sign ++ toString ip ++ "." ++ toString (fr / 10)
    else if fr < 10 then sign ++ toString ip ++ ".0" ++ toString fr
    else sign ++ toString ip ++ "." ++ toString fr

/-- `CacheService.getWeatherCacheKey`: coordinates rounded to 2 decimals,
joined by a comma. -/
def getWeatherCacheKey (lat lon : JNum) : String :=
  coordKeyPart lat ++ "," ++ coordKeyPart lon

/-- `CacheService.getCachedLocationSearch`: returns the cached value (or
`none`) together with the cache blob as persisted when the call returns
(an expired entry is deleted and the deletion written back). -/
def getCachedLocationSearch (query : String) (now : ℕ) (store : LocMap) :
    Option (List Location) × LocMap :=
  let cacheKey := normalizeQuery query
  match lookupKey store cacheKey with
  | none => (none, store)
  | some entry =>
    if now > entry.expiresAt then (none, eraseKey store cacheKey)
    else (some entry.data, store)

/-- `CacheService.getCachedWeatherData`, analogously. -/
def getCachedWeatherData (lat lon : JNum) (now : ℕ) (store : WMap) :
    Option WeatherCacheData × WMap :=
  let cacheKey := getWeatherCacheKey lat lon
  match lookupKey store cacheKey with
  | none => (none, store)
  | some entry =>
    if now > entry.expiresAt then (none, eraseKey store cacheKey)
    else (some entry.data, store)

/-- The comparator of `CacheService.limitCacheSize`
(`(a, b) => a.timestamp - b.timestamp`, ascending). -/
def byTimestamp {α : Type} (a b : String × CacheEntry α) : Prop :=
  a.2.timestamp ≤ b.2.timestamp

instance {α : Type} : DecidableRel (byTimestamp (α := α)) :=
  fun a b => Nat.decLe a.2.timestamp b.2.timestamp

instance {α : Type} : IsTotal (String × CacheEntry α) byTimestamp :=
  ⟨fun a b => Nat.le_total a.2.timestamp b.2.timestamp⟩

instance {α : Type} : IsTrans (String × CacheEntry α) byTimestamp :=
  ⟨fun _ _ _ hab hbc => Nat.le_trans hab hbc⟩

/-- `CacheService.limitCacheSize`: once the entry count exceeds `maxSize`,
sort all entries by creation timestamp (ascending, stable — `Array.sort`)
and delete the oldest ones until `maxSize` remain. -/
def limitCacheSize {α : Type} (cache : List (String × CacheEntry α))
    (maxSize : ℕ) : List (String × CacheEntry α) :=
  if cache.length ≤ maxSize then cache
  else
    let sorted := List.insertionSort byTimestamp cache
    let toRemove := (sorted.take (cache.length - maxSize)).map Prod.fst
    cache.filter (fun p => decide (p.1 ∉ toRemove))

/-- `CacheService.cacheLocationSearch`: insert under the normalized query
key with a 24h TTL, then enforce the 50-entry bound. -/
def cacheLocationSearch (query : String) (locations : List Location)
    (now : ℕ) (store : LocMap) : LocMap :=
  let cacheKey := normalizeQuery query
  let cache := setEntry store cacheKey
    ⟨locations, now, now + LOCATION_CACHE_DURATION⟩
  limitCacheSize cache MAX_LOCATION_CACHE_SIZE

/-- `CacheService.cacheWeatherData`: insert `{current, forecast}` under the
rounded-coordinate key with the configured TTL (no size bound). -/
def cacheWeatherData (lat lon : JNum) (current : CurrentWeatherData)
    (forecast : List ForecastData) (now : ℕ) (store : WMap) : WMap :=
  setEntry store (getWeatherCacheKey lat lon)
    ⟨⟨current, forecast⟩, now, now + WEATHER_CACHE_DURATION⟩

/-- `RateLimitHandler`'s per-key window record. -/
structure RateWindow where
  count : ℕ
  resetTime : ℕ
deriving DecidableEq

/-- The static `RateLimitHandler.requestCounts` map. -/
abbrev RateState := List (String × RateWindow)

/-- `RATE_LIMIT_WINDOW` (one minute in ms). -/
def RATE_LIMIT_WINDOW : ℕ := 60000

/-- `MAX_REQUESTS_PER_WINDOW`. -/
def MAX_REQUESTS_PER_WINDOW : ℕ := 60

/-- `RateLimitHandler.checkRateLimit`: fresh/expired window starts at count
1 and allows; a full unexpired window blocks without touching the count;
otherwise the count is incremented and the call is allowed. -/
def checkRateLimit (serviceKey : String) (now : ℕ) (st : RateState) :
    Bool × RateState :=
  match lookupKey st serviceKey with
  | none =>
    (true, setEntry st serviceKey ⟨1, now + RATE_LIMIT_WINDOW⟩)
  | some current =>
    if now > current.resetTime then
      (true, setEntry st serviceKey ⟨1, now + RATE_LIMIT_WINDOW⟩)
    else if current.count ≥ MAX_REQUESTS_PER_WINDOW then
      (false, st)
    else
      (true, setEntry st serviceKey ⟨current.count + 1, current.resetTime⟩)

/-- `RateLimitHandler.getResetTime`: `max(0, resetTime - now)`. -/
def getResetTime (serviceKey : String) (now : ℕ) (st : RateState) : ℕ :=
  match lookupKey st serviceKey with
  | none => 0
  | some current => current.resetTime - now

/-- `RateLimitHandler.handleRateLimitExceeded`. -/
def handleRateLimitExceeded (serviceKey : String) (now : ℕ)
    (st : RateState) : AppError :=
  let resetTime := getResetTime serviceKey now st
  let resetMinutes := (resetTime + 59999) / 60000
  createAppError .api
    ("Rate limit exceeded. Please wait " ++ toString resetMinutes ++
      " minute" ++ (if resetMinutes ≠ 1 then "s" else "") ++
      " before trying again.")
    true

/-- Repeated `checkRateLimit` calls at a fixed instant: the list of results
and the final map. -/
def iterCheck (serviceKey : String) (now : ℕ) :
    ℕ → RateState → List Bool × RateState
  | 0, st => ([], st)
  | n + 1, st =>
    let r := checkRateLimit serviceKey now st
    let rest := iterCheck serviceKey now n r.2
    (r.1 :: rest.1, rest.2)

/-- `RetryConfig` from `src/utils/errorHandling.ts`. Delays are rationals
(ms); `retryableErrors` lists the kinds the handler will retry. -/
structure RetryConfig where
  maxAttempts : ℕ
  baseDelay : ℚ
  maxDelay : ℚ
  backoffMultiplier : ℚ
  retryableErrors : List ErrorType
deriving DecidableEq

/-- `DEFAULT_RETRY_CONFIG`. -/
def DEFAULT_RETRY_CONFIG : RetryConfig :=
  ⟨3, 1000, 10000, 2, [.network, .api]⟩

/-- The `RetryHandler` config of `LocationService`
(`{maxAttempts: 2, baseDelay: 500, maxDelay: 3000}` over the defaults). -/
def LOCATION_RETRY_CONFIG : RetryConfig :=
  ⟨2, 500, 3000, 2, [.network, .api]⟩

/-- The `RetryHandler` config of `WeatherService`
(`{maxAttempts: 3, baseDelay: 1000, maxDelay: 8000}` over the defaults). -/
def WEATHER_RETRY_CONFIG : RetryConfig :=
  ⟨3, 1000, 8000, 2, [.network, .api]⟩

/-- The offline `AppError` thrown inside `executeWithRetry` when
`NetworkChecker.isNetworkOnline()` is false at the start of an attempt. -/
def noConnectionError : AppError :=
  createAppError .network
    "No internet connection. Please check your network and try again." true

instance {ε α : Type} [DecidableEq ε] [DecidableEq α] :
    DecidableEq (Except ε α) := fun x y =>
  match x, y with
  | .ok a, .ok b =>
    match decEq a b with
    | isTrue h => isTrue (h ▸ rfl)
    | isFalse h => isFalse (fun hh => h (Except.ok.inj hh))
  | .error a, .error b =>
    match decEq a b with
    | isTrue h => isTrue (h ▸ rfl)
    | isFalse h => isFalse (fun hh => h (Except.error.inj hh))
  | .ok _, .error _ => isFalse (fun hh => Except.noConfusion hh)
  | .error _, .ok _ => isFalse (fun hh => Except.noConfusion hh)

/-- Outcome of a retried operation: the settled value or thrown error,
plus the jittered backoff delays actually slept, in order. -/
structure RetryResult (T : Type) where
  result : Except Thrown T
  sleeps : List ℚ
deriving DecidableEq

/-- The loop body of `RetryHandler.executeWithRetry`, from a given attempt
number with the remaining number of attempts as fuel (`fuel =
maxAttempts - attempt + 1`; the zero-fuel branch is the `for`-loop falling
through, reachable only when `maxAttempts < 1`).

Each attempt first consults the network state; offline raises the
`noConnectionError` *inside* the `try`, so it is caught by the same
`catch` as an operation failure. A caught `AppError` that is
non-retryable, of a kind outside `retryableErrors`, or of kind `user` is
re-raised at once. On the final attempt the original error is re-raised
(wrapped as a non-retryable `api` error only if it was not an `AppError`).
Otherwise the handler sleeps `min(baseDelay * backoffMultiplier ^
(attempt-1), maxDelay) + jitter` and recurses. -/
def retryLoop {T : Type} (cfg : RetryConfig) (online : ℕ → Bool)
    (op : ℕ → Except Thrown T) (jitter : ℕ → ℚ) (operationName : String) :
    ℕ → ℕ → RetryResult T
  | _, 0 =>
    ⟨.error (.app (createAppError .api
      (operationName ++ " failed unexpectedly") false)), []⟩
  | attempt, fuel + 1 =>
    let attemptResult : Except Thrown T :=
      if online attempt then op attempt
      else .error (.app noConnectionError)
    match attemptResult with
    | .ok v => ⟨.ok v, []⟩
    | .error e =>
      let nonRetryable : Bool :=
        match e with
        | .app appError =>
          (¬ appError.retryable ∨ appError.type ∉ cfg.retryableErrors) ∨
            appError.type = .user
        | .other _ => false
      if nonRetryable then ⟨.error e, []⟩
      else if attempt = cfg.maxAttempts then
        match e with
        | .app _ => ⟨.error e, []⟩
        | .other msg =>
          ⟨.error (.app (createAppError .api
            (operationName ++ " failed after " ++
              toString cfg.maxAttempts ++ " attempts") false (some msg))), []⟩
      else
        let delay : ℚ :=
          min (cfg.baseDelay * cfg.backoffMultiplier ^ (attempt - 1))
            cfg.maxDelay
        let jitteredDelay := delay + jitter attempt
        let rest := retryLoop cfg online op jitter operationName
          (attempt + 1) fuel
        ⟨rest.result, jitteredDelay :: rest.sleeps⟩

/-- `RetryHandler.executeWithRetry`: attempts run from 1 to
`maxAttempts`. `online` gives the `NetworkChecker` state observed at the
start of each attempt, `op` the operation's outcome per attempt, `jitter`
the value of `Math.random() * 1000` per attempt. -/
def executeWithRetry {T : Type} (cfg : RetryConfig) (online : ℕ → Bool)
    (op : ℕ → Except Thrown T) (jitter : ℕ → ℚ)
    (operationName : String := "operation") : RetryResult T :=
  retryLoop cfg online op jitter operationName 1 cfg.maxAttempts

/-- `OfflineHandler.createOfflineError`. -/
def createOfflineError (context : String) : AppError :=
  createAppError .network
    ("You are currently offline. " ++ context ++
      " will be attempted when your connection is restored.") true

/-- `ErrorHandler.handleApiRequest`: offline pre-check (index 0 of the
`online` schedule), then rate-limit check, then `executeWithRetry`.
Returns the retry outcome together with the rate-limiter map after the
call. -/
def handleApiRequest {T : Type} (cfg : RetryConfig) (online : ℕ → Bool)
    (rl : RateState) (now : ℕ) (op : ℕ → Except Thrown T) (jitter : ℕ → ℚ)
    (context serviceKey : String) : RetryResult T × RateState :=
  if online 0 then
    let check := checkRateLimit serviceKey now rl
    if check.1 then
      (executeWithRetry cfg online op jitter context, check.2)
    else
      (⟨.error (.app (handleRateLimitExceeded serviceKey now check.2)),
        []⟩, check.2)
  else
    (⟨.error (.app (createOfflineError context)), []⟩, rl)

/-- A raw geocoding record: `null`/`undefined` entries are `none`, objects
are association lists of JSON fields. -/
abbrev RawResult := Option (List (String × JsonVal))

/-- `LocationService.isValidLocationResult`: non-null object with `id`,
`name`, `country`, `latitude`, `longitude` present, of the right `typeof`,
and with non-empty `name` and `country`. Coordinate values are only
type-checked, not range-checked. -/
def isValidLocationResult (result : RawResult) : Bool :=
  match result with
  | none => false
  | some obj =>
    (match lookupKey obj "id" with
     | some (.jnum _) => true
     | _ => false) &&
    (match lookupKey obj "name" with
     | some (.jstr s) => decide (s.length > 0)
     | _ => false) &&
    (match lookupKey obj "country" with
     | some (.jstr s) => decide (s.length > 0)
     | _ => false) &&
    (match lookupKey obj "latitude" with
     | some (.jnum _) => true
     | _ => false) &&
    (match lookupKey obj "longitude" with
     | some (.jnum _) => true
     | _ => false)

/-- JS truthiness of a JSON value (for `(result.admin1 as string) ||
undefined`). -/
def jsTruthy : JsonVal → Bool
  | .jnum .nan => false
  | .jnum (.val q) => decide (q ≠ 0)
  | .jstr s => decide (s ≠ "")
  | .jbool b => b
  | .jnull => false

/-- Field access used by `transformLocationResult`'s `as number` casts
(only reached on records accepted by `isValidLocationResult`). -/
def getNumField (obj : List (String × JsonVal)) (field : String) : JNum :=
  match lookupKey obj field with
  | some (.jnum x) => x
  | _ => .nan

/-- Field access used by `transformLocationResult`'s `as string` casts
(only reached on records accepted by `isValidLocationResult`). -/
def getStrField (obj : List (String × JsonVal)) (field : String) : String :=
  match lookupKey obj field with
  | some (.jstr s) => s
  | _ => ""

/-- `LocationService.transformLocationResult`. -/
def transformLocationResult (obj : List (String × JsonVal)) : Location :=
  { id := getNumField obj "id"
    name := getStrField obj "name"
    country := getStrField obj "country"
    admin1 :=
      match lookupKey obj "admin1" with
      | some v => if jsTruthy v then some v else none
      | none => none
    latitude := getNumField obj "latitude"
    longitude := getNumField obj "longitude" }

/-- `LocationService.validateAndTransformResults`: filter invalid records,
cap to `maxResults`, transform the survivors. -/
def validateAndTransformResults (results : List RawResult)
    (maxResults : ℕ) : List Location :=
  (((results.filter isValidLocationResult).take maxResults).filterMap id).map
    transformLocationResult

/-- `config.maxLocationResults` default. -/
def MAX_LOCATION_RESULTS : ℕ := 10

/-- `LocationService.searchLocations`. The HTTP layer is abstracted by two
parameters: `fetchResult` is the settled outcome of
`errorHandler.handleFetch` (always an `AppError` on failure, since every
failure inside `handleFetch` is classified), and `parseResult` the outcome
of `response.json()` (a raw exception message on parse failure, and
otherwise `none`/`some results` for a missing/present `results` field).
Returns the settled result and the location cache as persisted when the
call returns. -/
def searchLocations (query : String) (now : ℕ) (store : LocMap)
    (fetchResult : Except AppError Unit)
    (parseResult : Except String (Option (List RawResult)))
    (maxResults : ℕ := MAX_LOCATION_RESULTS) :
    Except Thrown (List Location) × LocMap :=
  let sanitizedQuery := sanitizeQuery query
  if ¬ isValidQuery sanitizedQuery then
    (.error (.app (createAppError .user
      "Please enter a valid location name (at least 2 characters)" false)),
      store)
  else
    match getCachedLocationSearch sanitizedQuery now store with
    | (some cachedResults, store1) => (.ok cachedResults, store1)
    | (none, store1) =>
      match fetchResult with
      | .error e => (.error (.app e), store1)
      | .ok _ =>
        match parseResult with
        | .error msg => (.error (.other msg), store1)
        | .ok none =>
          (.ok [], cacheLocationSearch sanitizedQuery [] now store1)
        | .ok (some results) =>
          let transformed := validateAndTransformResults results maxResults
          (.ok transformed,
            cacheLocationSearch sanitizedQuery transformed now store1)

/-- The `current` object of a weather API response, with `time` already
resolved to "parses to this epoch instant" or "unparseable"
(`new Date(...)` semantics are host behavior). -/
structure RawCurrent where
  time : Option ℕ
  temperature_2m : JNum
  weather_code : JNum
  wind_speed_10m : JNum
  wind_direction_10m : JNum
  relative_humidity_2m : JNum
deriving DecidableEq

/-- The `daily` object of a weather API response. -/
structure RawDaily where
  time : List (Option ℕ)
  temperature_2m_max : List JNum
  temperature_2m_min : List JNum
  weather_code : List JNum
  precipitation_sum : List JNum
deriving DecidableEq

/-- A parsed weather API response body; absent or `null` `current`/`daily`
objects (falsy in the `!data.current` / `!data.daily` guards) are `none`. -/
structure WeatherResponseJ where
  current : Option RawCurrent
  daily : Option RawDaily
deriving DecidableEq

/-- `WeatherService.parseTimestamp`: a timestamp that fails to parse falls
back to the current time, never raising. -/
def parseTimestamp (time : Option ℕ) (now : ℕ) : ℕ :=
  match time with
  | some t => t
  | none => now

/-- JS array indexing `arr[i]` on the parallel forecast arrays (an
out-of-bounds read yields `undefined`; modelled as `NaN`, not exercised on
well-formed responses). -/
def jsIndex (l : List JNum) (i : ℕ) : JNum :=
  l.getD i .nan

/-- `WeatherService.transformCurrentWeatherData`. -/
def transformCurrentWeatherData (current : RawCurrent) (now : ℕ) :
    CurrentWeatherData :=
  { temperature := current.temperature_2m
    weatherCode := current.weather_code
    windSpeed := current.wind_speed_10m
    windDirection := current.wind_direction_10m
    humidity := current.relative_humidity_2m
    timestamp := parseTimestamp current.time now }

/-- `WeatherService.transformForecastData`: one entry per element of
`daily.time`, indexing the parallel arrays. -/
def transformForecastData (daily : RawDaily) (now : ℕ) : List ForecastData :=
  daily.time.enum.map (fun p =>
    { date := parseTimestamp p.2 now
      temperatureMax := jsIndex daily.temperature_2m_max p.1
      temperatureMin := jsIndex daily.temperature_2m_min p.1
      weatherCode := jsIndex daily.weather_code p.1
      precipitationSum := jsIndex daily.precipitation_sum p.1 })

/-- `WeatherService.validateCoordinates`. The `typeof` guard (`'Invalid
coordinates provided'`) cannot fire on number-typed inputs; `NaN` is
number-typed and fails every range comparison, so it passes. -/
def validateCoordinates (lat lon : JNum) : Option AppError :=
  if jsLt lat (.val (-90)) || jsGt lat (.val 90) then
    some (createAppError .user
      "Latitude must be between -90 and 90 degrees" false)
  else if jsLt lon (.val (-180)) || jsGt lon (.val 180) then
    some (createAppError .user
      "Longitude must be between -180 and 180 degrees" false)
  else
    none

/-- `WeatherService.getCurrentWeather`. Validates coordinates, consults
the cache, and on a miss runs the (abstracted) fetch and parse; a missing
`current` object raises a retryable `data` error; the result is cached
only when the response also carries `daily` data. Returns the settled
result and the weather cache as persisted when the call returns. -/
def getCurrentWeather (lat lon : JNum) (now : ℕ) (store : WMap)
    (fetchResult : Except AppError Unit)
    (parseResult : Except String WeatherResponseJ) :
    Except Thrown CurrentWeatherData × WMap :=
  match validateCoordinates lat lon with
  | some e => (.error (.app e), store)
  | none =>
    match getCachedWeatherData lat lon now store with
    | (some cachedData, store1) => (.ok cachedData.current, store1)
    | (none, store1) =>
      match fetchResult with
      | .error e => (.error (.app e), store1)
      | .ok _ =>
        match parseResult with
        | .error msg => (.error (.other msg), store1)
        | .ok data =>
          match data.current with
          | none =>
            (.error (.app (createAppError .data
              "Invalid weather data received from service" true)), store1)
          | some rawCurrent =>
            let currentWeather := transformCurrentWeatherData rawCurrent now
            match data.daily with
            | some rawDaily =>
              (.ok currentWeather,
                cacheWeatherData lat lon currentWeather
                  (transformForecastData rawDaily now) now store1)
            | none => (.ok currentWeather, store1)

/-- `WeatherService.getForecast`, symmetric to `getCurrentWeather`: a
missing `daily` object raises a retryable `data` error; the result is
cached only when the response also carries `current` data. -/
def getForecast (lat lon : JNum) (now : ℕ) (store : WMap)
    (fetchResult : Except AppError Unit)
    (parseResult : Except String WeatherResponseJ) :
    Except Thrown (List ForecastData) × WMap :=
  match validateCoordinates lat lon with
  | some e => (.error (.app e), store)
  | none =>
    match getCachedWeatherData lat lon now store with
    | (some cachedData, store1) => (.ok cachedData.forecast, store1)
    | (none, store1) =>
      match fetchResult with
      | .error e => (.error (.app e), store1)
      | .ok _ =>
        match parseResult with
        | .error msg => (.error (.other msg), store1)
        | .ok data =>
          match data.daily with
          | none =>
            (.error (.app (createAppError .data
              "Invalid forecast data received from service" true)), store1)
          | some rawDaily =>
            let forecast := transformForecastData rawDaily now
            match data.current with
            | some rawCurrent =>
              (.ok forecast,
                cacheWeatherData lat lon
                  (transformCurrentWeatherData rawCurrent now) forecast now
                  store1)
            | none => (.ok forecast, store1)

/-- `WeatherService.getCompleteWeatherData`: requires both `current` and
`daily` in the response and always caches the complete data. -/
def getCompleteWeatherData (lat lon : JNum) (now : ℕ) (store : WMap)
    (fetchResult : Except AppError Unit)
    (parseResult : Except String WeatherResponseJ) :
    Except Thrown WeatherCacheData × WMap :=
  match validateCoordinates lat lon with
  | some e => (.error (.app e), store)
  | none =>
    match getCachedWeatherData lat lon now store with
    | (some cachedData, store1) => (.ok cachedData, store1)
    | (none, store1) =>
      match fetchResult with
      | .error e => (.error (.app e), store1)
      | .ok _ =>
        match parseResult with
        | .error msg => (.error (.other msg), store1)
        | .ok data =>
          match data.current, data.daily with
          | some rawCurrent, some rawDaily =>
            let current := transformCurrentWeatherData rawCurrent now
            let forecast := transformForecastData rawDaily now
            (.ok ⟨current, forecast⟩,
              cacheWeatherData lat lon current forecast now store1)
          | _, _ =>
            (.error (.app (createAppError .data
              "Invalid weather data received from service" true)), store1)

/-- Spec-side predicate (from the spec's `Location` datatype, for
comparison with the code): latitude is a number in `[-90, 90]`. -/
def specLatInRange : JNum → Bool
  | .nan => false
  | .val q => decide (-90 ≤ q ∧ q ≤ 90)

/-- Spec-side predicate (from the spec's `Location` datatype, for
comparison with the code): longitude is a number in `[-180, 180]`. -/
def specLonInRange : JNum → Bool
  | .nan => false
  | .val q => decide (-180 ≤ q ∧ q ≤ 180)

/-! ### Helper lemmas -/

theorem iterCheck_succ (key : String) (now n : ℕ) (st : RateState) :
    iterCheck key now (n + 1) st =
      ((checkRateLimit key now st).1 ::
          (iterCheck key now n (checkRateLimit key now st).2).1,
        (iterCheck key now n (checkRateLimit key now st).2).2) := rfl

theorem iterCheck_add (key : String) (now a b : ℕ) (st : RateState) :
    iterCheck key now (a + b) st =
      ((iterCheck key now a st).1 ++
          (iterCheck key now b (iterCheck key now a st).2).1,
        (iterCheck key now b (iterCheck key now a st).2).2) := by
  induction a generalizing st with
  | zero => simp [iterCheck]
  | succ a ih =>
    rw [show a + 1 + b = (a + b) + 1 by omega]
    rw [iterCheck_succ, iterCheck_succ, ih]
    simp

theorem checkRateLimit_fresh (key : String) (now : ℕ) (st : RateState)
    (hl : lookupKey st key = none) :
    checkRateLimit key now st =
      (true, setEntry st key ⟨1, now + RATE_LIMIT_WINDOW⟩) := by
  simp [checkRateLimit, hl]

theorem checkRateLimit_increment (key : String) (now : ℕ) (st : RateState)
    (c rt : ℕ) (hl : lookupKey st key = some ⟨c, rt⟩) (hnow : ¬ now > rt)
    (hc : c < MAX_REQUESTS_PER_WINDOW) :
    checkRateLimit key now st = (true, setEntry st key ⟨c + 1, rt⟩) := by
  simp [checkRateLimit, hl, hnow, Nat.not_le.mpr hc]

theorem checkRateLimit_blocked (key : String) (now : ℕ) (st : RateState)
    (c rt : ℕ) (hl : lookupKey st key = some ⟨c, rt⟩) (hnow : ¬ now > rt)
    (hc : c ≥ MAX_REQUESTS_PER_WINDOW) :
    checkRateLimit key now st = (false, st) := by
  simp [checkRateLimit, hl, hnow, hc]

theorem checkRateLimit_expired (key : String) (now : ℕ) (st : RateState)
    (c rt : ℕ) (hl : lookupKey st key = some ⟨c, rt⟩) (hnow : now > rt) :
    checkRateLimit key now st =
      (true, setEntry st key ⟨1, now + RATE_LIMIT_WINDOW⟩) := by
  simp [checkRateLimit, hl, hnow]

theorem lookupKey_single (key : String) {α : Type} (v : α) :
    lookupKey [(key, v)] key = some v := by
  simp [lookupKey]

theorem setEntry_single (key : String) {α : Type} (w v : α) :
    setEntry [(key, w)] key v = [(key, v)] := by
  simp [setEntry]

theorem iterCheck_fill (key : String) (now : ℕ) :
    ∀ (n c : ℕ), 1 ≤ c → c + n ≤ MAX_REQUESTS_PER_WINDOW →
    iterCheck key now n [(key, ⟨c, now + RATE_LIMIT_WINDOW⟩)] =
      (List.replicate n true, [(key, ⟨c + n, now + RATE_LIMIT_WINDOW⟩)]) := by
  intro n
  induction n with
  | zero => intro c _ _; simp [iterCheck]
  | succ n ih =>
    intro c hc hn
    have hstep : checkRateLimit key now
        [(key, ⟨c, now + RATE_LIMIT_WINDOW⟩)] =
        (true, [(key, ⟨c + 1, now + RATE_LIMIT_WINDOW⟩)]) := by
      rw [checkRateLimit_increment key now _ c (now + RATE_LIMIT_WINDOW)
        (lookupKey_single key _) (by omega) (by omega)]
      rw [setEntry_single]
    rw [iterCheck_succ, hstep]
    simp only
    rw [ih (c + 1) (by omega) (by omega)]
    simp [List.replicate_succ]
    omega

/-! ### C9 -/

/-- C9: `searchLocations("  New York  ")`, `searchLocations("NEW YORK")` and
`searchLocations("new    york")` all use the cache key `"new york"` — the
sanitized query lowercased, trimmed, with internal whitespace runs collapsed
to single spaces — so all three read and write one shared cache entry. -/
theorem search_cache_key_normalization :
    (normalizeQuery (sanitizeQuery "  New York  ") = "new york" ∧
     normalizeQuery (sanitizeQuery "NEW YORK") = "new york" ∧
     normalizeQuery (sanitizeQuery "new    york") = "new york") ∧
    (∀ (now : ℕ) (store : LocMap),
      getCachedLocationSearch (sanitizeQuery "  New York  ") now store =
        getCachedLocationSearch (sanitizeQuery "NEW YORK") now store ∧
      getCachedLocationSearch (sanitizeQuery "NEW YORK") now store =
        getCachedLocationSearch (sanitizeQuery "new    york") now store) ∧
    (∀ (locations : List Location) (now : ℕ) (store : LocMap),
      cacheLocationSearch (sanitizeQuery "  New York  ") locations now store =
        cacheLocationSearch (sanitizeQuery "NEW YORK") locations now store ∧
      cacheLocationSearch (sanitizeQuery "NEW YORK") locations now store =
        cacheLocationSearch (sanitizeQuery "new    york") locations now store) := by
  have h1 : normalizeQuery (sanitizeQuery "  New York  ") =
      normalizeQuery (sanitizeQuery "NEW YORK") := by decide
  have h2 : normalizeQuery (sanitizeQuery "NEW YORK") =
      normalizeQuery (sanitizeQuery "new    york") := by decide
  refine ⟨⟨by decide, by decide, by decide⟩, ?_, ?_⟩
  · intro now store
    constructor
    · simp only [getCachedLocationSearch, h1]
    · simp only [getCachedLocationSearch, h2]
  · intro locations now store
    constructor
    · simp only [cacheLocationSearch, h1]
    · simp only [cacheLocationSearch, h2]

/-! ### C4 -/

/-- C4: contrary to the claim (and to the repository's own tests, which
expect an `api`/retryable AppError with an "unexpected error" message), a
non-AppError exception thrown by `response.json()` is re-thrown raw by the
outermost client methods: the `catch` blocks of `searchLocations` and the
weather accessors only contain `throw error`, so the caller observes the
raw `SyntaxError`, not an AppError. -/
theorem raw_json_error_escapes_to_caller :
    searchLocations "London" 0 [] (.ok ()) (.error "Unexpected token") =
      (.error (.other "Unexpected token"), []) ∧
    getCurrentWeather (.val 40) (.val 50) 0 []
        (.ok ()) (.error "Unexpected token") =
      (.error (.other "Unexpected token"), []) := by
  constructor
  · rfl
  · decide

/-! ### C5 -/

/-- C5: for any service key and any fixed instant, 61 `checkRateLimit`
calls return `true` 60 times then `false`, and once the clock passes the
window's reset time the next call returns `true` again with a fresh window
of count 1. -/
theorem checkRateLimit_window_behavior (key : String) (now : ℕ) :
    (iterCheck key now 61 []).1 = List.replicate 60 true ++ [false] ∧
    (iterCheck key now 61 []).2 = [(key, ⟨60, now + RATE_LIMIT_WINDOW⟩)] ∧
    ∀ now2, now2 > now + RATE_LIMIT_WINDOW →
      checkRateLimit key now2 (iterCheck key now 61 []).2 =
        (true, [(key, ⟨1, now2 + RATE_LIMIT_WINDOW⟩)]) := by
  have hfirst : checkRateLimit key now ([] : RateState) =
      (true, [(key, ⟨1, now + RATE_LIMIT_WINDOW⟩)]) := by
    rw [checkRateLimit_fresh key now [] rfl]; rfl
  have hfill := iterCheck_fill key now 59 1 (by omega) (by decide)
  have hblocked : checkRateLimit key now
      [(key, ⟨1 + 59, now + RATE_LIMIT_WINDOW⟩)] =
      (false, [(key, ⟨1 + 59, now + RATE_LIMIT_WINDOW⟩)]) :=
    checkRateLimit_blocked key now _ (1 + 59) (now + RATE_LIMIT_WINDOW)
      (lookupKey_single key _) (by omega) (by decide)
  have hall : iterCheck key now 61 ([] : RateState) =
      (true :: (List.replicate 59 true ++ [false]),
        [(key, ⟨1 + 59, now + RATE_LIMIT_WINDOW⟩)]) := by
    rw [show (61 : ℕ) = 60 + 1 from rfl]
    rw [show (60 : ℕ) + 1 = 1 + (59 + 1) from rfl]
    rw [iterCheck_add key now 1 (59 + 1)]
    rw [show iterCheck key now 1 ([] : RateState) =
      ([true], [(key, ⟨1, now + RATE_LIMIT_WINDOW⟩)]) from by
        rw [iterCheck_succ, hfirst]; rfl]
    simp only
    rw [iterCheck_add key now 59 1, hfill]
    simp only
    rw [iterCheck_succ, hblocked]
    rfl
  refine ⟨?_, ?_, ?_⟩
  · rw [hall]
    show true :: (List.replicate 59 true ++ [false]) =
      List.replicate 60 true ++ [false]
    decide
  · rw [hall]
  · intro now2 h2
    rw [hall]
    simp only
    rw [checkRateLimit_expired key now2 _ (1 + 59) (now + RATE_LIMIT_WINDOW)
      (lookupKey_single key _) h2]
    rw [setEntry_single]

set_option maxRecDepth 4000 in
/-- Witness for C5 at key `"weather"`, window start 0, and a later instant
60001 just past the reset time. -/
theorem checkRateLimit_window_behavior_witness :
    (iterCheck "weather" 0 61 []).1 = List.replicate 60 true ++ [false] ∧
    checkRateLimit "weather" 60001 (iterCheck "weather" 0 61 []).2 =
      (true, [("weather", ⟨1, 60001 + RATE_LIMIT_WINDOW⟩)]) :=
  ⟨(checkRateLimit_window_behavior "weather" 0).1,
    (checkRateLimit_window_behavior "weather" 0).2.2 60001 (by decide)⟩

/-! ### C6 -/

/-- C6 counterexample: a blocked call does not store an incremented count.
With the `"weather"` window at count 60, the 61st-style call at the same
instant returns `false` but leaves the stored count at 60 — not 61 as the
claim asserts. -/
theorem checkRateLimit_blocked_increment_counterexample :
    (checkRateLimit "weather" 0 [("weather", ⟨60, 60000⟩)]).1 = false ∧
    (checkRateLimit "weather" 0 [("weather", ⟨60, 60000⟩)]).2 =
      [("weather", ⟨60, 60000⟩)] ∧
    ¬ (lookupKey (checkRateLimit "weather" 0
        [("weather", ⟨60, 60000⟩)]).2 "weather" = some ⟨60 + 1, 60000⟩) := by
  decide

/-- C6 (amended): when `checkRateLimit` returns `false` because the
ceiling was reached within an unexpired window, the stored map is
unchanged — the ceiling check happens *before* any increment, so the count
is not incremented (and in particular is not one greater afterwards); any
later call within the same window (at or before the reset time) is also
blocked. -/
theorem checkRateLimit_blocked_no_increment (key : String) (now : ℕ)
    (st : RateState) (hblocked : (checkRateLimit key now st).1 = false) :
    (checkRateLimit key now st).2 = st ∧
    ∀ now2 w, lookupKey st key = some w → ¬ now2 > w.resetTime →
      (checkRateLimit key now2 st).1 = false := by
  cases hl : lookupKey st key with
  | none =>
    rw [checkRateLimit_fresh key now st hl] at hblocked
    simp at hblocked
  | some w =>
    by_cases hnow : now > w.resetTime
    · rw [checkRateLimit_expired key now st w.count w.resetTime
        (by rw [hl]) hnow] at hblocked
      simp at hblocked
    · by_cases hc : w.count ≥ MAX_REQUESTS_PER_WINDOW
      · have hres := checkRateLimit_blocked key now st w.count w.resetTime
          (by rw [hl]) hnow hc
        constructor
        · rw [hres]
        · intro now2 w2 hl2 hnow2
          have hw2 : w2 = w := (Option.some.inj hl2).symm
          subst hw2
          rw [checkRateLimit_blocked key now2 st w2.count w2.resetTime
            (by rw [hl]) hnow2 hc]
      · rw [checkRateLimit_increment key now st w.count w.resetTime
          (by rw [hl]) hnow (by omega)] at hblocked
        simp at hblocked

/-- Witness for C6 (amended): the blocked call at count 60 leaves the map
unchanged and a later call in the same window is still blocked. -/
theorem checkRateLimit_blocked_no_increment_witness :
    (checkRateLimit "weather" 0 [("weather", ⟨60, 60000⟩)]).2 =
      [("weather", ⟨60, 60000⟩)] ∧
    (checkRateLimit "weather" 50000 [("weather", ⟨60, 60000⟩)]).1 = false :=
  ⟨(checkRateLimit_blocked_no_increment "weather" 0
      [("weather", ⟨60, 60000⟩)] (by decide)).1,
    (checkRateLimit_blocked_no_increment "weather" 0
      [("weather", ⟨60, 60000⟩)] (by decide)).2 50000 ⟨60, 60000⟩
      (by decide) (by decide)⟩

/-! ### C7 -/

theorem lookupKey_eraseKey {α : Type} (l : List (String × α)) (key : String) :
    lookupKey (eraseKey l key) key = none := by
  induction l with
  | nil => rfl
  | cons p rest ih =>
    by_cases h : p.1 = key
    · simpa [eraseKey, h] using ih
    · simpa [eraseKey, lookupKey, h] using ih

/-- C7: an expired entry is never returned: whenever a cache `get`
(`getCachedLocationSearch` or `getCachedWeatherData`) runs strictly after
the stored entry's `expiresAt`, it returns `none`, the expired entry is
deleted from the map, and the deletion is part of the map persisted when
the call returns (the returned map, which models both the in-memory object
and the `localStorage` blob written by `setItem`, no longer contains the
key). -/
theorem cache_get_expired_deletes :
    (∀ (query : String) (now : ℕ) (store : LocMap)
        (entry : CacheEntry (List Location)),
      lookupKey store (normalizeQuery query) = some entry →
      now > entry.expiresAt →
      getCachedLocationSearch query now store =
        (none, eraseKey store (normalizeQuery query)) ∧
      lookupKey (getCachedLocationSearch query now store).2
        (normalizeQuery query) = none) ∧
    (∀ (lat lon : JNum) (now : ℕ) (store : WMap)
        (entry : CacheEntry WeatherCacheData),
      lookupKey store (getWeatherCacheKey lat lon) = some entry →
      now > entry.expiresAt →
      getCachedWeatherData lat lon now store =
        (none, eraseKey store (getWeatherCacheKey lat lon)) ∧
      lookupKey (getCachedWeatherData lat lon now store).2
        (getWeatherCacheKey lat lon) = none) := by
  constructor
  · intro query now store entry hl hexp
    have h : getCachedLocationSearch query now store =
        (none, eraseKey store (normalizeQuery query)) := by
      simp [getCachedLocationSearch, hl, hexp]
    exact ⟨h, by rw [h]; exact lookupKey_eraseKey store (normalizeQuery query)⟩
  · intro lat lon now store entry hl hexp
    have h : getCachedWeatherData lat lon now store =
        (none, eraseKey store (getWeatherCacheKey lat lon)) := by
      simp [getCachedWeatherData, hl, hexp]
    exact ⟨h, by rw [h]; exact lookupKey_eraseKey store (getWeatherCacheKey lat lon)⟩

/-- Witness for C7: a location-cache entry under key `"paris"` expired at
time 5, read at time 6, and a weather-cache entry under key `"NaN,NaN"`
expired at time 5, read at time 6. -/
theorem cache_get_expired_deletes_witness :
    getCachedLocationSearch "Paris" 6
        [("paris", ⟨[], 0, 5⟩)] = (none, []) ∧
    getCachedWeatherData .nan .nan 6
        [("NaN,NaN", ⟨⟨⟨.val 1, .val 2, .val 3, .val 4, .val 5, 0⟩, []⟩, 0, 5⟩)] =
      (none, []) := by
  constructor
  · exact (cache_get_expired_deletes.1 "Paris" 6 [("paris", ⟨[], 0, 5⟩)]
      ⟨[], 0, 5⟩ (by decide) (by decide)).1
  · exact (cache_get_expired_deletes.2 .nan .nan 6
      [("NaN,NaN", ⟨⟨⟨.val 1, .val 2, .val 3, .val 4, .val 5, 0⟩, []⟩, 0, 5⟩)]
      ⟨⟨⟨.val 1, .val 2, .val 3, .val 4, .val 5, 0⟩, []⟩, 0, 5⟩
      (by decide) (by decide)).1

theorem lookupKey_setEntry_self {α : Type} (l : List (String × α))
    (key : String) (v : α) :
    lookupKey (setEntry l key v) key = some v := by
  induction l with
  | nil => simp [setEntry, lookupKey]
  | cons p rest ih =>
    by_cases h : p.1 = key
    · cases p
      simp_all [setEntry, lookupKey]
    · cases p
      simp_all [setEntry, lookupKey]

/-! ### C10 -/

/-- C10: coordinate validation accepts `NaN`: a `NaN` latitude or
longitude is number-typed and fails both out-of-range comparisons, so
`validateCoordinates` raises nothing, and with both coordinates `NaN` the
weather accessors proceed on the cache/network path under the weather
cache key `"NaN,NaN"` (here: a fresh entry under that key satisfies all
three accessors without a network call). -/
theorem nan_coordinates_accepted :
    validateCoordinates .nan .nan = none ∧
    (∀ q : ℚ, -180 ≤ q → q ≤ 180 →
      validateCoordinates .nan (.val q) = none) ∧
    (∀ q : ℚ, -90 ≤ q → q ≤ 90 →
      validateCoordinates (.val q) .nan = none) ∧
    getWeatherCacheKey .nan .nan = "NaN,NaN" ∧
    (∀ (now : ℕ) (store : WMap) (wd : CacheEntry WeatherCacheData)
        (fetchResult : Except AppError Unit)
        (parseResult : Except String WeatherResponseJ),
      lookupKey store "NaN,NaN" = some wd → ¬ now > wd.expiresAt →
      (getCurrentWeather .nan .nan now store fetchResult parseResult).1 =
        .ok wd.data.current ∧
      (getForecast .nan .nan now store fetchResult parseResult).1 =
        .ok wd.data.forecast ∧
      (getCompleteWeatherData .nan .nan now store fetchResult parseResult).1 =
        .ok wd.data) := by
  have hkey : getWeatherCacheKey .nan .nan = "NaN,NaN" := rfl
  refine ⟨rfl, ?_, ?_, hkey, ?_⟩
  · intro q hq1 hq2
    have h1 : ¬ q < -180 := not_lt.mpr hq1
    have h2 : ¬ q > 180 := not_lt.mpr hq2
    simp [validateCoordinates, jsLt, jsGt, h1, h2]
  · intro q hq1 hq2
    have h1 : ¬ q < -90 := not_lt.mpr hq1
    have h2 : ¬ q > 90 := not_lt.mpr hq2
    simp [validateCoordinates, jsLt, jsGt, h1, h2]
  · intro now store wd fetchResult parseResult hl hexp
    have hhit : getCachedWeatherData .nan .nan now store = (some wd.data, store) := by
      simp [getCachedWeatherData, hkey, hl, hexp]
    refine ⟨?_, ?_, ?_⟩
    · simp [getCurrentWeather, validateCoordinates, jsLt, jsGt, hhit]
    · simp [getForecast, validateCoordinates, jsLt, jsGt, hhit]
    · simp [getCompleteWeatherData, validateCoordinates, jsLt, jsGt, hhit]

/-- Witness for C10: a cached entry under key `"NaN,NaN"` satisfies the
accessors at `NaN` coordinates, and in-range partners keep validation
silent. -/
theorem nan_coordinates_accepted_witness :
    validateCoordinates .nan (.val 100) = none ∧
    validateCoordinates (.val 45) .nan = none ∧
    (getCurrentWeather .nan .nan 5
        [("NaN,NaN", ⟨⟨⟨.val 20, .val 1, .val 5, .val 180, .val 50, 0⟩, []⟩,
          0, 1000⟩)] (.ok ()) (.ok ⟨none, none⟩)).1 =
      .ok ⟨.val 20, .val 1, .val 5, .val 180, .val 50, 0⟩ :=
  ⟨nan_coordinates_accepted.2.1 100 (by norm_num) (by norm_num),
    nan_coordinates_accepted.2.2.1 45 (by norm_num) (by norm_num),
    (nan_coordinates_accepted.2.2.2.2 5
      [("NaN,NaN", ⟨⟨⟨.val 20, .val 1, .val 5, .val 180, .val 50, 0⟩, []⟩,
        0, 1000⟩)]
      ⟨⟨⟨.val 20, .val 1, .val 5, .val 180, .val 50, 0⟩, []⟩, 0, 1000⟩
      (.ok ()) (.ok ⟨none, none⟩) (by decide) (by decide)).1⟩

/-! ### C1 -/

/-- C1 counterexample: with the default config and the network offline
throughout, `executeWithRetry` does *not* raise immediately: the offline
`network` AppError thrown at the start of each attempt is caught by the
attempt's own `catch`, classified retryable, and retried — two backoff
sleeps (1000ms, 2000ms at zero jitter) happen and all three attempts are
consumed before the offline error surfaces. -/
theorem executeWithRetry_offline_retries_counterexample :
    (executeWithRetry DEFAULT_RETRY_CONFIG (fun _ => false)
        (fun _ => Except.ok ()) (fun _ => 0) "operation").sleeps =
      [1000, 2000] ∧
    (executeWithRetry DEFAULT_RETRY_CONFIG (fun _ => false)
        (fun _ => Except.ok ()) (fun _ => 0) "operation").result =
      .error (.app noConnectionError) := by
  have h : executeWithRetry DEFAULT_RETRY_CONFIG (fun _ => false)
      (fun _ => Except.ok ()) (fun _ => 0) "operation" =
      ⟨.error (.app noConnectionError), [1000, 2000]⟩ := by
    simp [executeWithRetry, retryLoop, DEFAULT_RETRY_CONFIG,
      noConnectionError, createAppError]
    norm_num
  rw [h]
  exact ⟨rfl, rfl⟩

/-- C1 (amended): the *immediate* offline rejection lives one layer up, in
`ErrorHandler.handleApiRequest`, which every service request goes through:
when the network is offline at the pre-check, it raises the offline
`network` AppError at once — no backoff sleep, no attempt of the
operation, and no rate-limit budget consumed. Inside
`RetryHandler.executeWithRetry` itself an offline attempt start raises a
*retryable* `network` error that consumes backoff sleeps and attempts
(see the counterexample). -/
theorem handleApiRequest_offline_immediate {T : Type} (cfg : RetryConfig)
    (online : ℕ → Bool) (rl : RateState) (now : ℕ)
    (op : ℕ → Except Thrown T) (jitter : ℕ → ℚ)
    (context serviceKey : String) (hoff : online 0 = false) :
    handleApiRequest cfg online rl now op jitter context serviceKey =
      (⟨.error (.app (createOfflineError context)), []⟩, rl) := by
  simp [handleApiRequest, hoff]

/-- Witness for C1 (amended): an offline `handleApiRequest` call for the
weather service raises the offline error with no sleeps and an untouched
rate-limiter map. -/
theorem handleApiRequest_offline_immediate_witness :
    handleApiRequest (T := Unit) WEATHER_RETRY_CONFIG (fun _ => false) []
        0 (fun _ => Except.ok ()) (fun _ => 0) "Weather" "weather" =
      (⟨.error (.app (createOfflineError "Weather")), []⟩, []) :=
  handleApiRequest_offline_immediate WEATHER_RETRY_CONFIG (fun _ => false)
    [] 0 (fun _ => Except.ok ()) (fun _ => 0) "Weather" "weather" rfl

/-! ### C2 -/

/-- C2 counterexample: a `getCurrentWeather` call that misses the cache
and succeeds with a response carrying only the `current` object caches
*nothing*: the code writes the weather cache only when the response also
carries `daily` data (`cacheWeatherData` needs both halves), so the
returned cache map is still empty. -/
theorem getCurrentWeather_success_not_cached_counterexample :
    getCurrentWeather (.val 0) (.val 0) 0 [] (.ok ())
        (.ok ⟨some ⟨some 0, .val 20, .val 1, .val 5, .val 180, .val 50⟩,
          none⟩) =
      (.ok ⟨.val 20, .val 1, .val 5, .val 180, .val 50, 0⟩, []) := by
  decide

/-- C2 (amended): on a cache miss with a successful fetch and parse,
`getCurrentWeather` returns the transformed current conditions but writes
the cache only when the response also contains `daily` data;
`getForecast` returns the transformed forecast but writes the cache only
when the response also contains `current` data; when both halves are
present (always, for `getCompleteWeatherData`) they are cached together
under the shared rounded-coordinate key. A success with only the
requested half present is returned without being cached. -/
theorem weather_accessors_cache_amended :
    (∀ (lat lon : JNum) (now : ℕ) (store : WMap) (resp : WeatherResponseJ)
        (rawCurrent : RawCurrent),
      validateCoordinates lat lon = none →
      lookupKey store (getWeatherCacheKey lat lon) = none →
      resp.current = some rawCurrent →
      (getCurrentWeather lat lon now store (.ok ()) (.ok resp)).1 =
        .ok (transformCurrentWeatherData rawCurrent now) ∧
      (resp.daily = none →
        (getCurrentWeather lat lon now store (.ok ()) (.ok resp)).2 =
          store) ∧
      (∀ rawDaily, resp.daily = some rawDaily →
        lookupKey
          (getCurrentWeather lat lon now store (.ok ()) (.ok resp)).2
          (getWeatherCacheKey lat lon) =
          some ⟨⟨transformCurrentWeatherData rawCurrent now,
            transformForecastData rawDaily now⟩, now,
            now + WEATHER_CACHE_DURATION⟩)) ∧
    (∀ (lat lon : JNum) (now : ℕ) (store : WMap) (resp : WeatherResponseJ)
        (rawDaily : RawDaily),
      validateCoordinates lat lon = none →
      lookupKey store (getWeatherCacheKey lat lon) = none →
      resp.daily = some rawDaily →
      (getForecast lat lon now store (.ok ()) (.ok resp)).1 =
        .ok (transformForecastData rawDaily now) ∧
      (resp.current = none →
        (getForecast lat lon now store (.ok ()) (.ok resp)).2 = store) ∧
      (∀ rawCurrent, resp.current = some rawCurrent →
        lookupKey (getForecast lat lon now store (.ok ()) (.ok resp)).2
          (getWeatherCacheKey lat lon) =
          some ⟨⟨transformCurrentWeatherData rawCurrent now,
            transformForecastData rawDaily now⟩, now,
            now + WEATHER_CACHE_DURATION⟩)) ∧
    (∀ (lat lon : JNum) (now : ℕ) (store : WMap) (resp : WeatherResponseJ)
        (rawCurrent : RawCurrent) (rawDaily : RawDaily),
      validateCoordinates lat lon = none →
      lookupKey store (getWeatherCacheKey lat lon) = none →
      resp.current = some rawCurrent → resp.daily = some rawDaily →
      (getCompleteWeatherData lat lon now store (.ok ()) (.ok resp)).1 =
        .ok ⟨transformCurrentWeatherData rawCurrent now,
          transformForecastData rawDaily now⟩ ∧
      lookupKey
        (getCompleteWeatherData lat lon now store (.ok ()) (.ok resp)).2
        (getWeatherCacheKey lat lon) =
        some ⟨⟨transformCurrentWeatherData rawCurrent now,
          transformForecastData rawDaily now⟩, now,
          now + WEATHER_CACHE_DURATION⟩) := by
  refine ⟨?_, ?_, ?_⟩
  · intro lat lon now store resp rawCurrent hval hl hc
    have hmiss : getCachedWeatherData lat lon now store = (none, store) := by
      simp [getCachedWeatherData, hl]
    refine ⟨?_, ?_, ?_⟩
    · cases hd : resp.daily with
      | none => simp [getCurrentWeather, hval, hmiss, hc, hd]
      | some rawDaily => simp [getCurrentWeather, hval, hmiss, hc, hd]
    · intro hd
      simp [getCurrentWeather, hval, hmiss, hc, hd]
    · intro rawDaily hd
      simp [getCurrentWeather, hval, hmiss, hc, hd, cacheWeatherData,
        lookupKey_setEntry_self]
  · intro lat lon now store resp rawDaily hval hl hd
    have hmiss : getCachedWeatherData lat lon now store = (none, store) := by
      simp [getCachedWeatherData, hl]
    refine ⟨?_, ?_, ?_⟩
    · cases hc : resp.current with
      | none => simp [getForecast, hval, hmiss, hd, hc]
      | some rawCurrent => simp [getForecast, hval, hmiss, hd, hc]
    · intro hc
      simp [getForecast, hval, hmiss, hd, hc]
    · intro rawCurrent hc
      simp [getForecast, hval, hmiss, hd, hc, cacheWeatherData,
        lookupKey_setEntry_self]
  · intro lat lon now store resp rawCurrent rawDaily hval hl hc hd
    have hmiss : getCachedWeatherData lat lon now store = (none, store) := by
      simp [getCachedWeatherData, hl]
    constructor
    · simp [getCompleteWeatherData, hval, hmiss, hc, hd]
    · simp [getCompleteWeatherData, hval, hmiss, hc, hd, cacheWeatherData,
        lookupKey_setEntry_self]

/-- Witness for C2 (amended): at `NaN` coordinates with an empty cache, a
current-only response is returned but not cached, and a full response is
cached under the shared key. -/
theorem weather_accessors_cache_amended_witness :
    (getCurrentWeather .nan .nan 0 [] (.ok ())
        (.ok ⟨some ⟨some 0, .val 20, .val 1, .val 5, .val 180, .val 50⟩,
          none⟩)).2 = [] ∧
    lookupKey
      (getCurrentWeather .nan .nan 0 [] (.ok ())
        (.ok ⟨some ⟨some 0, .val 20, .val 1, .val 5, .val 180, .val 50⟩,
          some ⟨[some 100], [.val 21], [.val 11], [.val 2], [.val 0]⟩⟩)).2
      (getWeatherCacheKey .nan .nan) =
      some ⟨⟨transformCurrentWeatherData
          ⟨some 0, .val 20, .val 1, .val 5, .val 180, .val 50⟩ 0,
        transformForecastData
          ⟨[some 100], [.val 21], [.val 11], [.val 2], [.val 0]⟩ 0⟩, 0,
        0 + WEATHER_CACHE_DURATION⟩ :=
  ⟨(weather_accessors_cache_amended.1 .nan .nan 0 []
      ⟨some ⟨some 0, .val 20, .val 1, .val 5, .val 180, .val 50⟩, none⟩
      ⟨some 0, .val 20, .val 1, .val 5, .val 180, .val 50⟩
      rfl rfl rfl).2.1 rfl,
    (weather_accessors_cache_amended.1 .nan .nan 0 []
      ⟨some ⟨some 0, .val 20, .val 1, .val 5, .val 180, .val 50⟩,
        some ⟨[some 100], [.val 21], [.val 11], [.val 2], [.val 0]⟩⟩
      ⟨some 0, .val 20, .val 1, .val 5, .val 180, .val 50⟩
      rfl rfl rfl).2.2
      ⟨[some 100], [.val 21], [.val 11], [.val 2], [.val 0]⟩ rfl⟩

/-! ### C3 -/

/-- C3 counterexample: `isValidLocationResult` never checks coordinate
ranges, so a raw record with latitude 200 (all other fields valid) is
*kept*, and `searchLocations`' transformation returns a `Location` whose
latitude is outside `[-90, 90]` — contradicting the claim that
out-of-range records are dropped. -/
theorem out_of_range_coordinates_kept_counterexample :
    validateAndTransformResults
        [some [("id", .jnum (.val 1)), ("name", .jstr "X"),
          ("country", .jstr "Y"), ("latitude", .jnum (.val 200)),
          ("longitude", .jnum (.val 0))]] 10 =
      [⟨.val 1, "X", "Y", none, .val 200, .val 0⟩] ∧
    specLatInRange (.val 200) = false := by
  decide

/-- C3 (amended): every `Location` returned by the geocoding
transformation has a non-empty `name` and `country` (and, by
construction, number-typed `id`/`latitude`/`longitude`), and raw records
that fail the validity check — missing required fields, wrong `typeof`s,
empty `name`/`country`, or `null` entries — are silently dropped from the
result list rather than raised as errors; however, numeric coordinates
are *not* range-checked, so out-of-range values pass through. -/
theorem validateAndTransform_amended :
    (∀ (results : List RawResult) (maxResults : ℕ) (loc : Location),
      loc ∈ validateAndTransformResults results maxResults →
      loc.name.length > 0 ∧ loc.country.length > 0) ∧
    (∀ (rs1 rs2 : List RawResult) (r : RawResult) (maxResults : ℕ),
      isValidLocationResult r = false →
      validateAndTransformResults (rs1 ++ r :: rs2) maxResults =
        validateAndTransformResults (rs1 ++ rs2) maxResults) := by
  constructor
  · intro results maxResults loc hmem
    simp only [validateAndTransformResults, List.mem_map] at hmem
    obtain ⟨obj, hobj, htrans⟩ := hmem
    have hsome : some obj ∈ (results.filter isValidLocationResult).take
        maxResults := by
      rcases List.mem_filterMap.mp hobj with ⟨a, ha, hid⟩
      cases hid
      exact ha
    have hvalid : isValidLocationResult (some obj) = true :=
      List.of_mem_filter (List.take_subset _ _ hsome)
    simp only [isValidLocationResult, Bool.and_eq_true] at hvalid
    obtain ⟨⟨⟨⟨-, hname⟩, hcountry⟩, -⟩, -⟩ := hvalid
    subst htrans
    constructor
    · cases hl : lookupKey obj "name" with
      | none => rw [hl] at hname; simp at hname
      | some v =>
        cases v with
        | jstr s =>
          rw [hl] at hname
          simp only [decide_eq_true_eq] at hname
          simpa [transformLocationResult, getStrField, hl] using hname
        | jnum x => rw [hl] at hname; simp at hname
        | jbool b => rw [hl] at hname; simp at hname
        | jnull => rw [hl] at hname; simp at hname
    · cases hl : lookupKey obj "country" with
      | none => rw [hl] at hcountry; simp at hcountry
      | some v =>
        cases v with
        | jstr s =>
          rw [hl] at hcountry
          simp only [decide_eq_true_eq] at hcountry
          simpa [transformLocationResult, getStrField, hl] using hcountry
        | jnum x => rw [hl] at hcountry; simp at hcountry
        | jbool b => rw [hl] at hcountry; simp at hcountry
        | jnull => rw [hl] at hcountry; simp at hcountry
  · intro rs1 rs2 r maxResults hr
    simp [validateAndTransformResults, List.filter_append, hr]

/-- Witness for C3 (amended): a valid London record yields a `Location`
with non-empty name and country, and interposing an invalid record (a
string-typed `id`) between valid ones does not change the output. -/
theorem validateAndTransform_amended_witness :
    (Location.mk (.val 1) "London" "United Kingdom" none
        (.val 51) (.val 0)).name.length > 0 ∧
    validateAndTransformResults
        ([some [("id", .jnum (.val 1)), ("name", .jstr "London"),
          ("country", .jstr "United Kingdom"), ("latitude", .jnum (.val 51)),
          ("longitude", .jnum (.val 0))]] ++
          some [("id", .jstr "nope")] :: []) 10 =
      validateAndTransformResults
        ([some [("id", .jnum (.val 1)), ("name", .jstr "London"),
          ("country", .jstr "United Kingdom"), ("latitude", .jnum (.val 51)),
          ("longitude", .jnum (.val 0))]] ++ []) 10 :=
  ⟨(validateAndTransform_amended.1
      [some [("id", .jnum (.val 1)), ("name", .jstr "London"),
        ("country", .jstr "United Kingdom"), ("latitude", .jnum (.val 51)),
        ("longitude", .jnum (.val 0))]] 10
      (Location.mk (.val 1) "London" "United Kingdom" none
        (.val 51) (.val 0)) (by decide)).1,
    validateAndTransform_amended.2
      [some [("id", .jnum (.val 1)), ("name", .jstr "London"),
        ("country", .jstr "United Kingdom"), ("latitude", .jnum (.val 51)),
        ("longitude", .jnum (.val 0))]] [] (some [("id", .jstr "nope")]) 10
      (by decide)⟩

/-! ### C8 -/

theorem setEntry_of_lookup_none {α : Type} (l : List (String × α))
    (key : String) (v : α) (hl : lookupKey l key = none) :
    setEntry l key v = l ++ [(key, v)] := by
  induction l with
  | nil => rfl
  | cons p rest ih =>
    cases p with
    | mk k w =>
      simp only [lookupKey] at hl
      by_cases h : k = key
      · simp [h] at hl
      · rw [if_neg h] at hl
        simp [setEntry, h, ih hl]

theorem length_setEntry_le {α : Type} (l : List (String × α))
    (key : String) (v : α) : (setEntry l key v).length ≤ l.length + 1 := by
  induction l with
  | nil => simp [setEntry]
  | cons p rest ih =>
    cases p with
    | mk k w =>
      by_cases h : k = key
      · simp [setEntry, h]
      · simp only [setEntry, if_neg h, List.length_cons]
        omega

theorem mem_keys_setEntry {α : Type} (l : List (String × α)) (key : String)
    (v : α) (x : String) :
    x ∈ (setEntry l key v).map Prod.fst → x ∈ l.map Prod.fst ∨ x = key := by
  induction l with
  | nil =>
    intro hx
    simp [setEntry] at hx
    tauto
  | cons p rest ih =>
    cases p with
    | mk k w =>
      intro hx
      have hset : setEntry ((k, w) :: rest) key v =
          if k = key then (key, v) :: rest
          else (k, w) :: setEntry rest key v := rfl
      by_cases h : k = key
      · rw [hset, if_pos h, List.map_cons] at hx
        rcases List.mem_cons.mp hx with rfl | hx
        · right; rfl
        · left
          rw [List.map_cons]
          exact List.mem_cons_of_mem _ hx
      · rw [hset, if_neg h, List.map_cons] at hx
        rcases List.mem_cons.mp hx with rfl | hx
        · left
          rw [List.map_cons]
          exact List.mem_cons_self _ _
        · rcases ih hx with hin | rfl
          · left
            rw [List.map_cons]
            exact List.mem_cons_of_mem _ hin
          · right; rfl

theorem keys_nodup_setEntry {α : Type} (l : List (String × α)) (key : String)
    (v : α) (hn : (l.map Prod.fst).Nodup) :
    ((setEntry l key v).map Prod.fst).Nodup := by
  induction l with
  | nil => simp [setEntry]
  | cons p rest ih =>
    cases p with
    | mk k w =>
      rw [List.map_cons, List.nodup_cons] at hn
      obtain ⟨hk, hrest⟩ := hn
      have hset : setEntry ((k, w) :: rest) key v =
          if k = key then (key, v) :: rest
          else (k, w) :: setEntry rest key v := rfl
      by_cases h : k = key
      · rw [hset, if_pos h, List.map_cons, List.nodup_cons]
        exact ⟨h ▸ hk, hrest⟩
      · rw [hset, if_neg h, List.map_cons, List.nodup_cons]
        refine ⟨?_, ih hrest⟩
        intro hmem
        rcases mem_keys_setEntry rest key v k hmem with hin | heq
        · exact hk hin
        · exact h heq

theorem entry_eq_of_key_eq {α : Type} (l : List (String × α))
    (hn : (l.map Prod.fst).Nodup) (a b : String × α) (ha : a ∈ l)
    (hb : b ∈ l) (hk : a.1 = b.1) : a = b := by
  induction l with
  | nil => cases ha
  | cons p rest ih =>
    simp only [List.map_cons, List.nodup_cons] at hn
    obtain ⟨hp, hrest⟩ := hn
    rcases List.mem_cons.mp ha with rfl | ha'
    · rcases List.mem_cons.mp hb with rfl | hb'
      · rfl
      · exact absurd (hk ▸ List.mem_map_of_mem Prod.fst hb') hp
    · rcases List.mem_cons.mp hb with rfl | hb'
      · exact absurd (hk ▸ List.mem_map_of_mem Prod.fst ha') hp
      · exact ih hrest ha' hb'

theorem filter_ne_of_key_notMem {α : Type} (l : List (String × α))
    (k : String) (h : k ∉ l.map Prod.fst) :
    l.filter (fun p => decide (p.1 ≠ k)) = l := by
  rw [List.filter_eq_self]
  intro p hp
  simp only [decide_eq_true_eq]
  intro he
  exact h (he ▸ List.mem_map_of_mem Prod.fst hp)

theorem filter_ne_key_length {α : Type} (l : List (String × α))
    (m : String × α) (hn : (l.map Prod.fst).Nodup) (hm : m ∈ l) :
    (l.filter (fun p => decide (p.1 ≠ m.1))).length + 1 = l.length := by
  induction l with
  | nil => cases hm
  | cons p rest ih =>
    simp only [List.map_cons, List.nodup_cons] at hn
    obtain ⟨hp, hrest⟩ := hn
    rcases List.mem_cons.mp hm with rfl | hm'
    · rw [List.filter_cons, if_neg (by simp)]
      rw [filter_ne_of_key_notMem rest m.1 hp]
      simp
    · have hpm : p.1 ≠ m.1 := by
        intro he
        exact hp (he ▸ List.mem_map_of_mem Prod.fst hm')
      rw [List.filter_cons, if_pos (by simpa using hpm)]
      have := ih hrest hm'
      simp only [List.length_cons]
      omega

theorem insertionSort_head_min {α : Type}
    (l : List (String × CacheEntry α)) (h : String × CacheEntry α)
    (t : List (String × CacheEntry α))
    (hsort : List.insertionSort byTimestamp l = h :: t) :
    ∀ p ∈ l, h.2.timestamp ≤ p.2.timestamp := by
  intro p hp
  have hmem : p ∈ h :: t := by
    rw [← hsort]
    exact ((List.perm_insertionSort byTimestamp l).mem_iff).mpr hp
  rcases List.mem_cons.mp hmem with rfl | hpt
  · exact le_refl _
  · have hsorted : List.Sorted byTimestamp (h :: t) := by
      rw [← hsort]
      exact List.sorted_insertionSort byTimestamp l
    exact List.rel_of_sorted_cons hsorted p hpt

theorem limitCacheSize_eviction {α : Type}
    (l : List (String × CacheEntry α)) (hn : (l.map Prod.fst).Nodup)
    (hl : l.length = MAX_LOCATION_CACHE_SIZE + 1) :
    ∃ h t, List.insertionSort byTimestamp l = h :: t ∧ h ∈ l ∧
      limitCacheSize l MAX_LOCATION_CACHE_SIZE =
        l.filter (fun p => decide (p.1 ≠ h.1)) ∧
      (limitCacheSize l MAX_LOCATION_CACHE_SIZE).length =
        MAX_LOCATION_CACHE_SIZE := by
  have hlen : (List.insertionSort byTimestamp l).length = l.length :=
    (List.perm_insertionSort byTimestamp l).length_eq
  obtain ⟨h, t, hsort⟩ : ∃ h t,
      List.insertionSort byTimestamp l = h :: t := by
    cases hs : List.insertionSort byTimestamp l with
    | nil => rw [hs] at hlen; simp at hlen; omega
    | cons h t => exact ⟨h, t, rfl⟩
  have hhl : h ∈ l :=
    (List.perm_insertionSort byTimestamp l).subset
      (hsort ▸ List.mem_cons_self h t)
  have hlim : limitCacheSize l MAX_LOCATION_CACHE_SIZE =
      l.filter (fun p => decide (p.1 ≠ h.1)) := by
    unfold limitCacheSize
    rw [if_neg (by omega)]
    have h1 : l.length - MAX_LOCATION_CACHE_SIZE = 1 := by omega
    rw [h1, hsort]
    show l.filter (fun p => decide (p.1 ∉ [h.1])) =
      l.filter (fun p => decide (p.1 ≠ h.1))
    have hpred : (fun p : String × CacheEntry α =>
        decide (p.1 ∉ [h.1])) = (fun p => decide (p.1 ≠ h.1)) := by
      funext p
      simp
    rw [hpred]
  refine ⟨h, t, hsort, hhl, hlim, ?_⟩
  rw [hlim]
  have := filter_ne_key_length l h hn hhl
  omega

/-- C8: after every `cacheLocationSearch` insertion into a well-formed
cache (unique keys) of at most 50 entries, the location cache holds at
most 50 entries; and inserting a 51st entry under a fresh key, when the
51 entries have pairwise-distinct creation timestamps witnessed by a
strictly-oldest entry `m`, evicts exactly `m` (the single entry with the
oldest `timestamp`), leaving exactly 50 entries in original order. -/
theorem cacheLocationSearch_bound_and_eviction :
    (∀ (store : LocMap) (query : String) (locations : List Location)
        (now : ℕ),
      (store.map Prod.fst).Nodup →
      store.length ≤ MAX_LOCATION_CACHE_SIZE →
      (cacheLocationSearch query locations now store).length ≤
        MAX_LOCATION_CACHE_SIZE) ∧
    (∀ (store : LocMap) (query : String) (locations : List Location)
        (now : ℕ) (m : String × CacheEntry (List Location)),
      (store.map Prod.fst).Nodup →
      store.length = MAX_LOCATION_CACHE_SIZE →
      lookupKey store (normalizeQuery query) = none →
      m ∈ setEntry store (normalizeQuery query)
        ⟨locations, now, now + LOCATION_CACHE_DURATION⟩ →
      (∀ p ∈ setEntry store (normalizeQuery query)
          ⟨locations, now, now + LOCATION_CACHE_DURATION⟩,
        p.1 ≠ m.1 → m.2.timestamp < p.2.timestamp) →
      cacheLocationSearch query locations now store =
        (setEntry store (normalizeQuery query)
          ⟨locations, now, now + LOCATION_CACHE_DURATION⟩).filter
          (fun p => decide (p.1 ≠ m.1)) ∧
      (cacheLocationSearch query locations now store).length =
        MAX_LOCATION_CACHE_SIZE) := by
  constructor
  · intro store query locations now hnodup hle
    have hlen := length_setEntry_le store (normalizeQuery query)
      (⟨locations, now, now + LOCATION_CACHE_DURATION⟩ :
        CacheEntry (List Location))
    have hnod := keys_nodup_setEntry store (normalizeQuery query)
      (⟨locations, now, now + LOCATION_CACHE_DURATION⟩ :
        CacheEntry (List Location)) hnodup
    show (limitCacheSize (setEntry store (normalizeQuery query)
      ⟨locations, now, now + LOCATION_CACHE_DURATION⟩)
      MAX_LOCATION_CACHE_SIZE).length ≤ MAX_LOCATION_CACHE_SIZE
    by_cases hc : (setEntry store (normalizeQuery query)
        ⟨locations, now, now + LOCATION_CACHE_DURATION⟩).length ≤
        MAX_LOCATION_CACHE_SIZE
    · rw [limitCacheSize, if_pos hc]
      exact hc
    · obtain ⟨h, t, _, _, _, hlen50⟩ := limitCacheSize_eviction
        (setEntry store (normalizeQuery query)
          ⟨locations, now, now + LOCATION_CACHE_DURATION⟩) hnod (by omega)
      rw [hlen50]
  · intro store query locations now m hnodup h50 hfresh hmem hmin
    have hins := setEntry_of_lookup_none store (normalizeQuery query)
      (⟨locations, now, now + LOCATION_CACHE_DURATION⟩ :
        CacheEntry (List Location)) hfresh
    have hlen : (setEntry store (normalizeQuery query)
        ⟨locations, now, now + LOCATION_CACHE_DURATION⟩).length =
        MAX_LOCATION_CACHE_SIZE + 1 := by
      rw [hins]
      simp [h50]
    have hnod := keys_nodup_setEntry store (normalizeQuery query)
      (⟨locations, now, now + LOCATION_CACHE_DURATION⟩ :
        CacheEntry (List Location)) hnodup
    obtain ⟨h, t, hsort, hhl, hlim, hlen50⟩ := limitCacheSize_eviction
      (setEntry store (normalizeQuery query)
        ⟨locations, now, now + LOCATION_CACHE_DURATION⟩) hnod hlen
    have hmin_all := insertionSort_head_min _ h t hsort
    have hm_eq : h = m := by
      by_contra hne
      have hkne : h.1 ≠ m.1 := fun hk =>
        hne (entry_eq_of_key_eq _ hnod h m hhl hmem hk)
      have h1 : m.2.timestamp < h.2.timestamp := hmin h hhl hkne
      have h2 : h.2.timestamp ≤ m.2.timestamp := hmin_all m hmem
      omega
    subst hm_eq
    exact ⟨hlim, hlen50⟩

set_option maxRecDepth 8000 in
/-- Witness for C8: a 50-entry cache with keys `"0"`..`"49"` and distinct
timestamps 1..50; inserting under the fresh key `"zz"` at time 60 leaves
exactly 50 entries, with the oldest entry (key `"0"`, timestamp 1)
evicted. -/
theorem cacheLocationSearch_bound_and_eviction_witness :
    (cacheLocationSearch "zz" [] 60
      ((List.range 50).map
        (fun i => (toString i, ⟨[], i + 1, 900000000⟩)))).length =
      MAX_LOCATION_CACHE_SIZE :=
  (cacheLocationSearch_bound_and_eviction.2
    ((List.range 50).map (fun i => (toString i, ⟨[], i + 1, 900000000⟩)))
    "zz" [] 60 ("0", ⟨[], 1, 900000000⟩)
    (by decide) (by decide) (by decide) (by decide) (by decide)).2
